import Mathlib

set_option linter.unusedVariables false

/-!
Shallow embedding of `plugin-elizaos-cloud` (src/src/index.ts), an adapter that
maps a host runtime's abstract model-invocation calls onto an OpenAI-compatible
HTTP API.  Pure data (settings, request/response shapes) is embedded directly;
the single outbound HTTP call of each handler is modelled by an explicit
network-oracle argument, and each handler returns, besides its result, the list
of outbound requests it issued and the list of usage events it emitted.
-/

namespace ElizaCloud

/-- The configuration context visible to the plugin: the host runtime's
`getSetting` map and the process environment (`process.env`).  Both map a key
to `none` (JS `undefined`) or to a string value. -/
structure Config where
  runtimeSettings : String → Option String
  env : String → Option String

/-- JS truthiness of a possibly-missing string: `undefined` and the empty
string are falsy, every other string truthy. -/
def truthy : Option String → Bool
  | none => false
  | some s => !s.isEmpty

/-- `getSetting` (index.ts:31): `runtime.getSetting(key) ?? process.env[key]
?? defaultValue`.  The `??` operator falls through only on `undefined`, so an
empty-string setting is kept. -/
def getSetting (cfg : Config) (key : String)
    (defaultValue : Option String := none) : Option String :=
  match cfg.runtimeSettings key with
  | some v => some v
  | none =>
    match cfg.env key with
    | some v => some v
    | none => defaultValue

/-- `getBaseURL` (index.ts:44): setting `ELIZAOS_BASE_URL` with hardcoded
default `http://localhost:3001/api/v1`; the default branch of `getD` is
unreachable because a default value is supplied. -/
def getBaseURL (cfg : Config) : String :=
  (getSetting cfg "ELIZAOS_BASE_URL"
    (some "http://localhost:3001/api/v1")).getD "http://localhost:3001/api/v1"

/-- `getEmbeddingBaseURL` (index.ts:55): uses `ELIZAOS_EMBEDDING_URL` when it
is truthy, otherwise falls back to the general base URL. -/
def getEmbeddingBaseURL (cfg : Config) : String :=
  let embeddingURL := getSetting cfg "ELIZAOS_EMBEDDING_URL"
  if truthy embeddingURL then embeddingURL.getD "" else getBaseURL cfg

/-- `getApiKey` (index.ts:71): setting `ELIZAOS_API_KEY`, no default. -/
def getApiKey (cfg : Config) : Option String :=
  getSetting cfg "ELIZAOS_API_KEY"

/-- `getEmbeddingApiKey` (index.ts:87): uses `ELIZAOS_EMBEDDING_API_KEY` when
truthy, otherwise falls back to the general API key. -/
def getEmbeddingApiKey (cfg : Config) : Option String :=
  let embeddingApiKey := getSetting cfg "ELIZAOS_EMBEDDING_API_KEY"
  if truthy embeddingApiKey then embeddingApiKey else getApiKey cfg

/-- `getSmallModel` (index.ts:103): `ELIZAOS_SMALL_MODEL ?? SMALL_MODEL ??
'gpt-4o'`, each lookup following the full setting precedence. -/
def getSmallModel (cfg : Config) : String :=
  (getSetting cfg "ELIZAOS_SMALL_MODEL").getD
    ((getSetting cfg "SMALL_MODEL" (some "gpt-4o")).getD "gpt-4o")

/-- `getLargeModel` (index.ts:116): `ELIZAOS_LARGE_MODEL ?? LARGE_MODEL ??
'gpt-5-mini'`. -/
def getLargeModel (cfg : Config) : String :=
  (getSetting cfg "ELIZAOS_LARGE_MODEL").getD
    ((getSetting cfg "LARGE_MODEL" (some "gpt-5-mini")).getD "gpt-5-mini")

/-- `getImageDescriptionModel` (index.ts:129). -/
def getImageDescriptionModel (cfg : Config) : String :=
  (getSetting cfg "ELIZAOS_IMAGE_DESCRIPTION_MODEL" (some "gpt-4o")).getD "gpt-4o"

/-- The host's abstract model-type identifiers are plain strings in
`@elizaos/core`; the plugin compares them with `===`. -/
def ModelType.TEXT_SMALL : String := "TEXT_SMALL"

def ModelType.TEXT_LARGE : String := "TEXT_LARGE"

def ModelType.TEXT_EMBEDDING : String := "TEXT_EMBEDDING"

def ModelType.IMAGE_DESCRIPTION : String := "IMAGE_DESCRIPTION"

def ModelType.OBJECT_SMALL : String := "OBJECT_SMALL"

def ModelType.OBJECT_LARGE : String := "OBJECT_LARGE"

/-- The tokenizer library (`js-tiktoken`) is an external collaborator: an
encoding is a pair of an encode and a decode function, obtained per model name
by `encodingForModel`.  Handlers take the library as an explicit argument. -/
structure Encoding where
  encode : String → List Nat
  decode : List Nat → String

/-- The model name resolved inside `tokenizeText`/`detokenizeText`
(index.ts:171-174 and 188-191): note that it reads `process.env` ONLY — the
runtime settings of the host are not consulted here, unlike every other
model-name resolution in the file. -/
def tokenizerModelName (cfg : Config) (model : String) : String :=
  if model = ModelType.TEXT_SMALL then
    (cfg.env "ELIZAOS_SMALL_MODEL").getD ((cfg.env "SMALL_MODEL").getD "gpt-4o")
  else
    (cfg.env "ELIZAOS_LARGE_MODEL").getD ((cfg.env "LARGE_MODEL").getD "gpt-5-mini")

/-- `tokenizeText` (index.ts:170): resolve the model name from the
environment, obtain its encoding, encode the prompt. -/
def tokenizeText (lib : String → Encoding) (cfg : Config)
    (model : String) (prompt : String) : List Nat :=
  (lib (tokenizerModelName cfg model)).encode prompt

/-- `detokenizeText` (index.ts:187): resolve the model name the same way and
decode the tokens. -/
def detokenizeText (lib : String → Encoding) (cfg : Config)
    (model : String) (tokens : List Nat) : String :=
  (lib (tokenizerModelName cfg model)).decode tokens

/-- JS whitespace (the class matched by the regex `\s`, and the characters
stripped by `String.prototype.trim`): the common ASCII whitespace, NBSP, the
Unicode space separators and BOM.  Only the characters relevant here are
enumerated. -/
def isJsWhitespace (c : Char) : Bool :=
  c = ' ' || c = '\t' || c = '\n' || c = '\r' ||
  c = (Char.ofNat 0x0b) || c = (Char.ofNat 0x0c) ||
  c = (Char.ofNat 0xa0) || c = (Char.ofNat 0x1680) ||
  (0x2000 ≤ c.toNat && c.toNat ≤ 0x200a) ||
  c = (Char.ofNat 0x2028) || c = (Char.ofNat 0x2029) ||
  c = (Char.ofNat 0x202f) || c = (Char.ofNat 0x205f) ||
  c = (Char.ofNat 0x3000) || c = (Char.ofNat 0xfeff)

/-- `String.prototype.trim`: strip JS whitespace from both ends. -/
def jsTrim (s : String) : String :=
  String.mk (((s.data.dropWhile isJsWhitespace).reverse.dropWhile
    isJsWhitespace).reverse)

/-- Value of a digit character. -/
def digitVal (c : Char) : Nat := c.toNat - 48

/-- `Number.parseInt(s, 10)`: skip leading whitespace, optional sign, then a
non-empty run of decimal digits; `none` models `NaN`. -/
def parseIntJS (s : String) : Option Int :=
  let l := s.data.dropWhile isJsWhitespace
  let signAndRest : Int × List Char :=
    match l with
    | '-' :: r => (-1, r)
    | '+' :: r => (1, r)
    | _ => (1, l)
  let ds := signAndRest.2.takeWhile Char.isDigit
  if ds.isEmpty then none
  else some (signAndRest.1 * Int.ofNat (ds.foldl (fun a c => 10 * a + digitVal c) 0))

/-- An outbound HTTP request, identified by the claims' observable data: the
resolved base URL, the fixed path appended to it, and the Authorization
header value.  A missing key interpolates as the string `undefined` in the
template literal, exactly as in JS. -/
structure OutboundRequest where
  baseURL : String
  path : String
  auth : String
deriving DecidableEq

/-- Render the Authorization header the way the source's template literals do. -/
def bearerOf (apiKey : Option String) : String :=
  "Bearer " ++ apiKey.getD "undefined"

/-- The payload of `emitModelUsageEvent` (index.ts:293): a MODEL_USED event
with provider `elizaos` and the three token counts. -/
structure ModelUsedEvent where
  provider : String
  type : String
  prompt : String
  promptTokens : Nat
  completionTokens : Nat
  totalTokens : Nat
deriving DecidableEq

/-- `emitModelUsageEvent` builds the event payload; the host's event bus is
modelled by collecting emitted events in the handler output. -/
def emitModelUsageEvent (type prompt : String) (p c t : Nat) : ModelUsedEvent :=
  ⟨"elizaos", type, prompt, p, c, t⟩

/-- The observable outcome of one handler invocation: its result, the
outbound requests it issued (in order), and the usage events it emitted. -/
structure HandlerOut (α : Type) where
  result : α
  requests : List OutboundRequest
  events : List ModelUsedEvent

/-- `response.ok` of fetch: status in the 2xx range. -/
def respOk (status : Nat) : Bool := 200 ≤ status && status < 300

/-- `VECTOR_DIMS` of `@elizaos/core` (external constant imported by the
plugin): the set of embedding dimensions the host accepts. -/
def VECTOR_DIMS : List Int := [384, 512, 768, 1024, 1536, 3072]

/-- The string `${embeddingDimension}` interpolated into the invalid-dimension
error: `NaN` when the parse failed. -/
def dimDisplay : Option Int → String
  | none => "NaN"
  | some v => toString v

/-- The invalid-dimension error message of index.ts:437. -/
def invalidDimMsg (d : Option Int) : String :=
  "Invalid embedding dimension: " ++ dimDisplay d ++
    ". Must be one of: 384, 512, 768, 1024, 1536, 3072"

/-- The string fed to `Number.parseInt` for the embedding dimension
(index.ts:431-434): setting `ELIZAOS_EMBEDDING_DIMENSIONS` with default
`1536`, then `|| '1536'` so a falsy (empty) setting also becomes `1536`. -/
def resolveEmbeddingDimensionStr (cfg : Config) : String :=
  match getSetting cfg "ELIZAOS_EMBEDDING_DIMENSIONS" (some "1536") with
  | some s => if s.isEmpty then "1536" else s
  | none => "1536"

/-- The parsed embedding dimension; `none` models `NaN`. -/
def resolveEmbeddingDimension (cfg : Config) : Option Int :=
  parseIntJS (resolveEmbeddingDimensionStr cfg)

/-- Whether the configured embedding dimension passes the `VECTOR_DIMS`
membership check of index.ts:436. -/
def dimValid (cfg : Config) : Bool :=
  match resolveEmbeddingDimension cfg with
  | some d => VECTOR_DIMS.contains d
  | none => false

/-- `Array(dim).fill(0)` followed by `v[0] = tag`. -/
def sentinelVec (dim : Nat) (tag : Rat) : List Rat :=
  (List.replicate dim (0 : Rat)).set 0 tag

/-- The `params` argument of the TEXT_EMBEDDING handler:
`TextEmbeddingParams | string | null`; the object form carries an optional
`text` field. -/
inductive EmbParams where
  | null
  | str (s : String)
  | obj (text : Option String)
deriving DecidableEq

/-- The text extracted from the params by the chain of index.ts:447-457:
a string param is used as is; an object param only when its `text` field is
truthy; otherwise the input shape is invalid. -/
def embTextOf : EmbParams → Option String
  | .null => none
  | .str s => some s
  | .obj t => if truthy t then t else none

/-- Token usage as reported in an embeddings response
(`usage?: { prompt_tokens, total_tokens }`). -/
structure EmbUsage where
  prompt_tokens : Nat
  total_tokens : Nat
deriving DecidableEq

/-- The network oracle for the single `fetch` of the embedding handler:
either the awaited promise rejects (any exception inside the `try`), or a
response arrives with a status, a status text, whether `response.json()`
parses, the optional `data[0].embedding` field and the optional `usage`
field. -/
inductive EmbNet where
  | throws (msg : String)
  | resp (status : Nat) (statusText : String) (jsonOk : Bool)
      (embedding : Option (List Rat)) (usage : Option EmbUsage)
deriving DecidableEq

/-- The `data[0].embedding` of a fully successful embedding response (2xx
status and well-formed JSON), `none` otherwise. -/
def embSuccessEmbedding : EmbNet → Option (List Rat)
  | .throws _ => none
  | .resp status _ jsonOk embedding _ =>
    if respOk status && jsonOk then embedding else none

/-- The TEXT_EMBEDDING handler (index.ts:422-530).  In order: resolve and
validate the dimension (throwing on an invalid one), serve the `null` /
invalid-shape / empty-text sentinel vectors without touching credentials or
the network, check the (embedding) API key, then issue the single POST to
`/embeddings` and map its outcome; every failure past the key check degrades
to a sentinel vector instead of throwing. -/
def textEmbedding (cfg : Config) (params : EmbParams) (net : EmbNet) :
    HandlerOut (Except String (List Rat)) :=
  let dOpt := resolveEmbeddingDimension cfg
  match dOpt with
  | none => ⟨.error (invalidDimMsg none), [], []⟩
  | some dInt =>
    if dInt ∈ VECTOR_DIMS then
      let dim := dInt.toNat
      match params with
      | .null => ⟨.ok (sentinelVec dim 0.1), [], []⟩
      | p =>
        match embTextOf p with
        | none => ⟨.ok (sentinelVec dim 0.2), [], []⟩
        | some text =>
          if (jsTrim text).isEmpty then ⟨.ok (sentinelVec dim 0.3), [], []⟩
          else
            let embeddingBaseURL := getEmbeddingBaseURL cfg
            let apiKey := getEmbeddingApiKey cfg
            if truthy apiKey then
              let req : OutboundRequest :=
                ⟨embeddingBaseURL, "/embeddings", bearerOf apiKey⟩
              match net with
              | .throws _ => ⟨.ok (sentinelVec dim 0.6), [req], []⟩
              | .resp status _ jsonOk embedding usage =>
                if !respOk status then ⟨.ok (sentinelVec dim 0.4), [req], []⟩
                else if !jsonOk then ⟨.ok (sentinelVec dim 0.6), [req], []⟩
                else
                  match embedding with
                  | none => ⟨.ok (sentinelVec dim 0.5), [req], []⟩
                  | some e =>
                    ⟨.ok e, [req],
                      match usage with
                      | some u =>
                        [emitModelUsageEvent ModelType.TEXT_EMBEDDING text
                          u.prompt_tokens 0 u.total_tokens]
                      | none => []⟩
            else ⟨.error "ElizaOS API key not configured", [], []⟩
    else ⟨.error (invalidDimMsg (some dInt)), [], []⟩

/-- Network oracle for `fetchTextToSpeech`: rejection, or a response with a
status, a status text, the body text read on the error branch, and an opaque
tag standing for the returned body stream. -/
inductive TTSNet where
  | throws (msg : String)
  | resp (status : Nat) (statusText : String) (errText : String) (bodyTag : String)
deriving DecidableEq

/-- `fetchTextToSpeech` (index.ts:314-346).  It resolves the TTS settings and
issues the POST to `/audio/speech` WITHOUT any credential check; a non-2xx
status raises `ElizaOS TTS error {status}: {body}`, which the surrounding
catch rewraps as `Failed to fetch speech from ElizaOS TTS: …`. -/
def fetchTextToSpeech (cfg : Config) (text : String) (net : TTSNet) :
    HandlerOut (Except String String) :=
  let apiKey := getApiKey cfg
  let model := getSetting cfg "ELIZAOS_TTS_MODEL" (some "gpt-4o-mini-tts")
  let voice := getSetting cfg "ELIZAOS_TTS_VOICE" (some "nova")
  let instructions := getSetting cfg "ELIZAOS_TTS_INSTRUCTIONS" (some "")
  let baseURL := getBaseURL cfg
  let req : OutboundRequest := ⟨baseURL, "/audio/speech", bearerOf apiKey⟩
  match net with
  | .throws m =>
    ⟨.error ("Failed to fetch speech from ElizaOS TTS: " ++ m), [req], []⟩
  | .resp status _ errText bodyTag =>
    if !respOk status then
      ⟨.error ("Failed to fetch speech from ElizaOS TTS: ElizaOS TTS error "
        ++ toString status ++ ": " ++ errText), [req], []⟩
    else ⟨.ok bodyTag, [req], []⟩

/-- The TEXT_TO_SPEECH model handler (index.ts:853): resolves the model name
for logging, delegates to `fetchTextToSpeech` and rethrows its errors
unchanged. -/
def textToSpeech (cfg : Config) (text : String) (net : TTSNet) :
    HandlerOut (Except String String) :=
  let ttsModelName := getSetting cfg "ELIZAOS_TTS_MODEL" (some "gpt-4o-mini-tts")
  fetchTextToSpeech cfg text net

/-- Token usage as reported by chat-style responses
(`prompt_tokens`, `completion_tokens`, `total_tokens`). -/
structure Usage3 where
  promptTokens : Nat
  completionTokens : Nat
  totalTokens : Nat
deriving DecidableEq

/-- The params of the IMAGE handler: `{ prompt, n?, size? }`. -/
structure ImageParams where
  prompt : String
  n : Option Int := none
  size : Option String := none
deriving DecidableEq

/-- Parsed body of an image-generation response: the optional `data` array of
URLs, plus any `usage` object the upstream may include (which the handler
never reads). -/
structure ImageBody where
  data : Option (List String)
  usage : Option Usage3
deriving DecidableEq

/-- Network oracle for the IMAGE handler's fetch: rejection, or a response
whose `json()` either throws (`Except.error`) or yields a body. -/
inductive ImageNet where
  | throws (msg : String)
  | resp (status : Nat) (statusText : String) (body : Except String ImageBody)

/-- The `usage` field carried by a successfully parsed image response. -/
def imageNetUsage : ImageNet → Option Usage3
  | .resp _ _ (.ok b) => b.usage
  | _ => none

/-- The IMAGE handler (index.ts:621-673): apply the JS `||` defaults to `n`
and `size`, check the API key (throwing before any request when it is falsy),
issue the single POST to `/images/generations`; a non-2xx status throws
`Failed to generate image: {statusText}` and the catch block rethrows every
error unchanged.  No usage event is ever emitted. -/
def imageHandler (cfg : Config) (params : ImageParams) (net : ImageNet) :
    HandlerOut (Except String (Option (List String))) :=
  let n : Int := match params.n with
    | some v => if v = 0 then 1 else v
    | none => 1
  let size : String := match params.size with
    | some s => if s.isEmpty then "1024x1024" else s
    | none => "1024x1024"
  let modelName := "dall-e-3"
  let baseURL := getBaseURL cfg
  let apiKey := getApiKey cfg
  if truthy apiKey then
    let req : OutboundRequest := ⟨baseURL, "/images/generations", bearerOf apiKey⟩
    match net with
    | .throws m => ⟨.error m, [req], []⟩
    | .resp status statusText body =>
      if !respOk status then
        ⟨.error ("Failed to generate image: " ++ statusText), [req], []⟩
      else
        match body with
        | .error m => ⟨.error m, [req], []⟩
        | .ok b => ⟨.ok b.data, [req], []⟩
  else ⟨.error "ElizaOS API key not configured", [], []⟩

/-- Network oracle for the TRANSCRIPTION handler's fetch: rejection, or a
response whose `json()` either throws or yields the optional `text` field. -/
inductive TransNet where
  | throws (msg : String)
  | resp (status : Nat) (statusText : String) (body : Except String (Option String))

/-- The TRANSCRIPTION handler (index.ts:806-852): check the API key, then the
audio buffer (missing or empty throws), issue the single POST to
`/audio/transcriptions`; a non-2xx status throws
`Failed to transcribe audio: {statusText}` and the catch rethrows unchanged.
No usage event is ever emitted. -/
def transcription (cfg : Config) (audioBuffer : Option (List Nat))
    (net : TransNet) : HandlerOut (Except String (Option String)) :=
  let modelName := "whisper-1"
  let baseURL := getBaseURL cfg
  let apiKey := getApiKey cfg
  if truthy apiKey then
    if (match audioBuffer with | none => true | some b => b.isEmpty) then
      ⟨.error "Audio buffer is empty or invalid for transcription", [], []⟩
    else
      let req : OutboundRequest := ⟨baseURL, "/audio/transcriptions", bearerOf apiKey⟩
      match net with
      | .throws m => ⟨.error m, [req], []⟩
      | .resp status statusText body =>
        if !respOk status then
          ⟨.error ("Failed to transcribe audio: " ++ statusText), [req], []⟩
        else
          match body with
          | .error m => ⟨.error m, [req], []⟩
          | .ok t => ⟨.ok t, [req], []⟩
  else ⟨.error "ElizaOS API key not configured - Cannot make request", [], []⟩

/-- `GenerateTextParams` with the destructuring defaults of
index.ts:545-552; `none` models an absent (undefined) field. -/
structure GenParams where
  prompt : String
  stopSequences : Option (List String) := none
  maxTokens : Option Int := none
  temperature : Option Rat := none
  frequencyPenalty : Option Rat := none
  presencePenalty : Option Rat := none
deriving DecidableEq

/-- Oracle for the SDK's `generateText`: it either rejects (any upstream or
transport failure the SDK surfaces) or resolves with the generated text and
an optional usage record. -/
inductive GenNet where
  | throws (msg : String)
  | success (text : String) (usage : Option Usage3)
deriving DecidableEq

/-- Common body of the TEXT_SMALL (index.ts:543) and TEXT_LARGE
(index.ts:582) handlers, which differ only in the resolved model name and the
event tag: build the client from the resolved key and base URL, make the one
`generateText` call (the SDK targets `/chat/completions` under the base URL,
as the source's own request log states), propagate SDK errors unchanged, and
emit exactly one usage event when the result carries usage. -/
def generateTextCore (cfg : Config) (modelName tag : String)
    (params : GenParams) (net : GenNet) : HandlerOut (Except String String) :=
  let stopSequences := params.stopSequences.getD []
  let maxTokens := params.maxTokens.getD 8192
  let temperature := params.temperature.getD 0.7
  let frequencyPenalty := params.frequencyPenalty.getD 0.7
  let presencePenalty := params.presencePenalty.getD 0.7
  let req : OutboundRequest := ⟨getBaseURL cfg, "/chat/completions", bearerOf (getApiKey cfg)⟩
  match net with
  | .throws m => ⟨.error m, [req], []⟩
  | .success text usage =>
    ⟨.ok text, [req],
      match usage with
      | some u =>
        [emitModelUsageEvent tag params.prompt u.promptTokens
          u.completionTokens u.totalTokens]
      | none => []⟩

/-- The TEXT_SMALL handler. -/
def textSmall (cfg : Config) (params : GenParams) (net : GenNet) :
    HandlerOut (Except String String) :=
  generateTextCore cfg (getSmallModel cfg) ModelType.TEXT_SMALL params net

/-- The TEXT_LARGE handler. -/
def textLarge (cfg : Config) (params : GenParams) (net : GenNet) :
    HandlerOut (Except String String) :=
  generateTextCore cfg (getLargeModel cfg) ModelType.TEXT_LARGE params net

/-- A character of the regex class `[:\s]`. -/
def isColonOrSpace (c : Char) : Bool := c = ':' || isJsWhitespace c

/-- Case-insensitive match of the literal `title` at the head of the list. -/
def titleWordAt : List Char → Bool
  | t :: i :: t2 :: l :: e :: _ =>
    t.toLower = 't' && i.toLower = 'i' && t2.toLower = 't' &&
      l.toLower = 'l' && e.toLower = 'e'
  | _ => false

/-- Backtracking of the greedy `[:\s]+`: the largest `k` between 1 and `kMax`
such that after dropping `k` class characters the next character exists and
is not a newline (so that the lazy `(.+?)` can match at least one
character).  Tries `k = kMax` first, then smaller values. -/
def findViableK (rest : List Char) : Nat → Option Nat
  | 0 => none
  | k + 1 =>
    match rest.drop (k + 1) with
    | c :: _ => if c ≠ '\n' then some (k + 1) else findViableK rest k
    | [] => findViableK rest k

/-- Attempt the pattern `title[:\s]+(.+?)(?:\n|$)` (flag `i`) anchored at the
head of the list.  On success returns the capture of `(.+?)` (which, because
`.` excludes newlines and the group is terminated by `\n` or the end, is the
run of characters up to the next newline) and the remainder of the input
after the whole match (the terminating newline, when present, is part of the
match). -/
def matchTitleAt (l : List Char) : Option (List Char × List Char) :=
  if titleWordAt l then
    let rest := l.drop 5
    let kMax := (rest.takeWhile isColonOrSpace).length
    match findViableK rest kMax with
    | none => none
    | some k =>
      let afterSep := rest.drop k
      let capture := afterSep.takeWhile (fun c => c ≠ '\n')
      let tail := afterSep.drop capture.length
      let remainder := match tail with
        | '\n' :: r => r
        | r => r
      some (capture, remainder)
  else none

/-- First (leftmost) match of the title pattern in the list: returns the
characters before the match, the capture, and the characters after the
match. -/
def findTitleMatch : List Char → Option (List Char × List Char × List Char)
  | [] => none
  | c :: rest =>
    match matchTitleAt (c :: rest) with
    | some (capture, remainder) => some ([], capture, remainder)
    | none =>
      match findTitleMatch rest with
      | some (pre, capture, remainder) => some (c :: pre, capture, remainder)
      | none => none

/-- `content.match(/title[:\s]+(.+?)(?:\n|$)/i)?.[1]`. -/
def titleCaptureOf (content : String) : Option String :=
  (findTitleMatch content.data).map (fun r => String.mk r.2.1)

/-- `content.replace(/title[:\s]+(.+?)(?:\n|$)/i, '')`: remove the first
match, keep everything else. -/
def removeTitleOf (content : String) : String :=
  match findTitleMatch content.data with
  | some (pre, _, remainder) => String.mk (pre ++ remainder)
  | none => content

/-- The title computed at index.ts:791-792:
`titleMatch?.[1]?.trim() || 'Image Analysis'`. -/
def parsedTitleOf (content : String) : String :=
  match titleCaptureOf content with
  | some capture =>
    let t := jsTrim capture
    if t.isEmpty then "Image Analysis" else t
  | none => "Image Analysis"

/-- The description computed at index.ts:793: the content with the first
title match removed, trimmed. -/
def parsedDescriptionOf (content : String) : String :=
  jsTrim (removeTitleOf content)

/-- The default analysis prompt of the IMAGE_DESCRIPTION handler. -/
def defaultAnalysisPrompt : String :=
  "Please analyze this image and provide a title and detailed description."

/-- The params of the IMAGE_DESCRIPTION handler:
`ImageDescriptionParams | string`. -/
inductive ImgDescParams where
  | str (url : String)
  | obj (imageUrl : String) (prompt : Option String)
deriving DecidableEq

/-- The prompt text sent upstream (index.ts:687-695): the default for a
string param; for an object param, `params.prompt || default` (so an empty
prompt also falls back). -/
def imgDescPromptText : ImgDescParams → String
  | .str _ => defaultAnalysisPrompt
  | .obj _ p => if truthy p then p.getD "" else defaultAnalysisPrompt

/-- The prompt recorded in the usage event (index.ts:762):
`typeof params === 'string' ? params : params.prompt || ''`. -/
def imgDescEventPrompt : ImgDescParams → String
  | .str s => s
  | .obj _ p => if truthy p then p.getD "" else ""

/-- The custom-prompt test of index.ts:779-783: an object param with a truthy
prompt different from the default. -/
def isCustomPrompt : ImgDescParams → Bool
  | .str _ => false
  | .obj _ p => truthy p && p ≠ some defaultAnalysisPrompt

/-- Parsed body of a chat-completions response as the IMAGE_DESCRIPTION
handler reads it: the optional `choices[0].message.content` and the optional
`usage`. -/
structure ChatBody where
  content : Option String
  usage : Option Usage3

/-- Network oracle for the IMAGE_DESCRIPTION fetch. -/
inductive ChatNet where
  | throws (msg : String)
  | resp (status : Nat) (statusText : String) (body : Except String ChatBody)

/-- The `usage` field carried by a successfully parsed chat response. -/
def chatNetUsage : ChatNet → Option Usage3
  | .resp _ _ (.ok b) => b.usage
  | _ => none

/-- Result of the IMAGE_DESCRIPTION handler: it never throws — every error
is converted into the `{title, description}` placeholder object — and a
custom prompt yields the raw content string. -/
inductive ImgDescResult where
  | raw (content : String)
  | obj (title description : String)
deriving DecidableEq

/-- The IMAGE_DESCRIPTION handler (index.ts:674-805).  Resolve model and max
tokens, pick the prompt text, return a placeholder (not a throw) when the
API key is falsy, then issue the single POST to `/chat/completions`.  Inside
the try, a non-2xx status or a JSON failure raises and is caught, becoming a
placeholder whose description embeds the message; on success a usage event is
emitted whenever usage is present (even when the content is missing), and the
result is the raw content for a custom prompt, otherwise the parsed
`{title, description}` object. -/
def imageDescription (cfg : Config) (params : ImgDescParams) (net : ChatNet) :
    HandlerOut ImgDescResult :=
  let modelName := getImageDescriptionModel cfg
  let maxTokens := parseIntJS
    (match getSetting cfg "OPENAI_IMAGE_DESCRIPTION_MAX_TOKENS" (some "8192") with
      | some s => if s.isEmpty then "8192" else s
      | none => "8192")
  let promptText := imgDescPromptText params
  let baseURL := getBaseURL cfg
  let apiKey := getApiKey cfg
  if truthy apiKey then
    let req : OutboundRequest := ⟨baseURL, "/chat/completions", bearerOf apiKey⟩
    match net with
    | .throws m =>
      ⟨.obj "Failed to analyze image" ("Error: " ++ m), [req], []⟩
    | .resp status _ body =>
      if !respOk status then
        ⟨.obj "Failed to analyze image"
          ("Error: ElizaOS API error: " ++ toString status), [req], []⟩
      else
        match body with
        | .error m =>
          ⟨.obj "Failed to analyze image" ("Error: " ++ m), [req], []⟩
        | .ok b =>
          let events := match b.usage with
            | some u =>
              [emitModelUsageEvent ModelType.IMAGE_DESCRIPTION
                (imgDescEventPrompt params) u.promptTokens u.completionTokens
                u.totalTokens]
            | none => []
          if truthy b.content then
            let content := b.content.getD ""
            if isCustomPrompt params then ⟨.raw content, [req], events⟩
            else
              ⟨.obj (parsedTitleOf content) (parsedDescriptionOf content),
                [req], events⟩
          else
            ⟨.obj "Failed to analyze image" "No response from API", [req], events⟩
  else ⟨.obj "Failed to analyze image" "API key not configured", [], []⟩

/-- JSON values, for the object-generation handlers; the handler treats them
opaquely. -/
inductive JSONValue where
  | null
  | bool (b : Bool)
  | num (n : Int)
  | str (s : String)
  | arr (elems : List JSONValue)
  | obj (fields : List (String × JSONValue))

/-- One step of the global replace
`text.replace(/```json\n|\n```|```/g, '')` of index.ts:273: at each scan
position try the alternatives in order, consume a match or move one
character; `fuel` bounds the recursion by the input length. -/
def stripFences : Nat → List Char → List Char
  | 0, l => l
  | _ + 1, [] => []
  | fuel + 1, c :: rest =>
    let l := c :: rest
    if l.take 8 = "```json\n".data then stripFences fuel (l.drop 8)
    else if l.take 4 = "\n```".data then stripFences fuel (l.drop 4)
    else if l.take 3 = "```".data then stripFences fuel (l.drop 3)
    else c :: stripFences fuel rest

/-- `getJsonRepairFunction` (index.ts:266-284) applied to a JSONParseError's
text: strip code fences, and return the cleaned text only when it parses
(`jsonParse` is the oracle for `JSON.parse`). -/
def getJsonRepairFunction (jsonParse : String → Option JSONValue)
    (text : String) : Option String :=
  let cleanedText := String.mk (stripFences text.data.length text.data)
  match jsonParse cleanedText with
  | some _ => some cleanedText
  | none => none

/-- `ObjectGenerationParams` as used by the handler. -/
structure ObjParams where
  prompt : String
  temperature : Option Rat := none
  schemaPresent : Bool := false

/-- Oracle for the SDK's `generateObject`: rejection with a
`JSONParseError` carrying the offending text, some other rejection, or
success with the object and optional usage. -/
inductive ObjNet where
  | throws (msg : String)
  | parseError (text : String)
  | success (object : JSONValue) (usage : Option Usage3)

/-- The error surfaced by the object-generation handler: the original
`JSONParseError` or another error. -/
inductive ObjError where
  | jsonParseError (text : String)
  | other (msg : String)

/-- `generateObjectByModelType` (index.ts:199-261): build the client, make the
one `generateObject` call (a chat-completions call under the resolved base
URL), emit a usage event on success when usage is present; on a
`JSONParseError`, attempt the fence-stripping repair and re-parse, returning
the repaired object or rethrowing; rethrow any other error. -/
def generateObjectByModelType (cfg : Config)
    (jsonParse : String → Option JSONValue) (params : ObjParams)
    (modelType : String) (modelName : String) (net : ObjNet) :
    HandlerOut (Except ObjError JSONValue) :=
  let temperature := params.temperature.getD 0
  let req : OutboundRequest :=
    ⟨getBaseURL cfg, "/chat/completions", bearerOf (getApiKey cfg)⟩
  match net with
  | .success object usage =>
    ⟨.ok object, [req],
      match usage with
      | some u =>
        [emitModelUsageEvent modelType params.prompt u.promptTokens
          u.completionTokens u.totalTokens]
      | none => []⟩
  | .parseError text =>
    match getJsonRepairFunction jsonParse text with
    | some repairedJsonString =>
      match jsonParse repairedJsonString with
      | some repairedObject => ⟨.ok repairedObject, [req], []⟩
      | none => ⟨.error (.other "failed to parse repaired JSON"), [req], []⟩
    | none => ⟨.error (.jsonParseError text), [req], []⟩
  | .throws m => ⟨.error (.other m), [req], []⟩

/-- The OBJECT_SMALL handler (index.ts:864). -/
def objectSmall (cfg : Config) (jsonParse : String → Option JSONValue)
    (params : ObjParams) (net : ObjNet) : HandlerOut (Except ObjError JSONValue) :=
  generateObjectByModelType cfg jsonParse params ModelType.OBJECT_SMALL
    (getSmallModel cfg) net

/-- The OBJECT_LARGE handler (index.ts:867). -/
def objectLarge (cfg : Config) (jsonParse : String → Option JSONValue)
    (params : ObjParams) (net : ObjNet) : HandlerOut (Except ObjError JSONValue) :=
  generateObjectByModelType cfg jsonParse params ModelType.OBJECT_LARGE
    (getLargeModel cfg) net

/-- The `usage` field carried by an embeddings response. -/
def embUsageOf : EmbNet → Option EmbUsage
  | .throws _ => none
  | .resp _ _ _ _ usage => usage

/-- The usage carried by a `generateObject` outcome. -/
def objNetUsage : ObjNet → Option Usage3
  | .success _ usage => usage
  | _ => none

/-- The usage carried by a `generateText` outcome. -/
def GenNet.usageOf : GenNet → Option Usage3
  | .success _ usage => usage
  | .throws _ => none

/-- A configuration in which no setting and no environment variable is set. -/
def cfgEmpty : Config := ⟨fun _ => none, fun _ => none⟩

/-- A configuration whose runtime settings provide only the API key. -/
def cfgKey : Config :=
  ⟨fun k => if k = "ELIZAOS_API_KEY" then some "test-api-key" else none,
   fun _ => none⟩

/-- A configuration with an API key and an explicit embedding dimension of
384. -/
def cfgKey384 : Config :=
  ⟨fun k =>
    if k = "ELIZAOS_API_KEY" then some "test-api-key"
    else if k = "ELIZAOS_EMBEDDING_DIMENSIONS" then some "384"
    else none,
   fun _ => none⟩

/-- A configuration whose runtime settings provide an explicit large-model
name and nothing else. -/
def cfgRtLargeModel : Config :=
  ⟨fun k => if k = "ELIZAOS_LARGE_MODEL" then some "custom-model" else none,
   fun _ => none⟩

/-- A concrete invertible encoding (code points as tokens), standing in for a
tiktoken encoding in witnesses. -/
def idEncoding : Encoding :=
  ⟨fun s => s.data.map Char.toNat, fun ts => String.mk (ts.map Char.ofNat)⟩


lemma dim_toNat_pos {d : Int} (hmem : d ∈ VECTOR_DIMS) : 0 < d.toNat := by
  simp only [VECTOR_DIMS, List.mem_cons, List.not_mem_nil, or_false] at hmem
  rcases hmem with rfl | rfl | rfl | rfl | rfl | rfl <;> decide

lemma sentinelVec_eq_cons {dim : Nat} (h : 0 < dim) (tag : Rat) :
    sentinelVec dim tag = tag :: List.replicate (dim - 1) 0 := by
  rcases dim with _ | n
  · omega
  · simp [sentinelVec, List.replicate_succ]

lemma sentinelVec_length (dim : Nat) (tag : Rat) : (sentinelVec dim tag).length = dim := by
  simp [sentinelVec]

lemma textEmbedding_requests_nil {cfg : Config} (hk : truthy (getEmbeddingApiKey cfg) = false)
    (p : EmbParams) (net : EmbNet) : (textEmbedding cfg p net).requests = [] := by
  unfold textEmbedding
  rcases resolveEmbeddingDimension cfg with _ | d
  · rfl
  · simp only
    split
    · rcases p with _ | s | t
      · rfl
      all_goals {
        simp only
        rcases h : embTextOf _ with _ | text
        · rfl
        · simp only
          split
          · rfl
          · rw [hk]
            simp }
    · rfl

lemma textEmbedding_net {cfg : Config} {d : Int} {p : EmbParams} {text : String}
    (hd : resolveEmbeddingDimension cfg = some d) (hmem : d ∈ VECTOR_DIMS)
    (htext : embTextOf p = some text) (htrim : (jsTrim text).isEmpty = false)
    (hk : truthy (getEmbeddingApiKey cfg) = true) (net : EmbNet) :
    textEmbedding cfg p net =
      (let req : OutboundRequest :=
        ⟨getEmbeddingBaseURL cfg, "/embeddings", bearerOf (getEmbeddingApiKey cfg)⟩
      match net with
      | .throws _ => ⟨.ok (sentinelVec d.toNat 0.6), [req], []⟩
      | .resp status _ jsonOk embedding usage =>
        if !respOk status then ⟨.ok (sentinelVec d.toNat 0.4), [req], []⟩
        else if !jsonOk then ⟨.ok (sentinelVec d.toNat 0.6), [req], []⟩
        else match embedding with
          | none => ⟨.ok (sentinelVec d.toNat 0.5), [req], []⟩
          | some e => ⟨.ok e, [req], match usage with
              | some u => [emitModelUsageEvent ModelType.TEXT_EMBEDDING text
                  u.prompt_tokens 0 u.total_tokens]
              | none => []⟩) := by
  unfold textEmbedding
  rw [hd]
  simp only
  rw [if_pos hmem]
  rcases p with _ | s | t
  · exact absurd htext (by simp [embTextOf])
  · simp only [embTextOf, Option.some.injEq] at htext
    subst htext
    simp only [embTextOf, htrim, hk]
    simp
  · simp only [embTextOf] at htext
    simp only [embTextOf, htext, htrim, hk]
    simp

lemma textEmbedding_null {cfg : Config} {d : Int}
    (hd : resolveEmbeddingDimension cfg = some d) (hmem : d ∈ VECTOR_DIMS) (net : EmbNet) :
    textEmbedding cfg .null net = ⟨.ok (sentinelVec d.toNat 0.1), [], []⟩ := by
  unfold textEmbedding
  rw [hd]
  simp only
  rw [if_pos hmem]

lemma textEmbedding_invalid {cfg : Config} {d : Int} {p : EmbParams}
    (hd : resolveEmbeddingDimension cfg = some d) (hmem : d ∈ VECTOR_DIMS)
    (hp : p ≠ .null) (htext : embTextOf p = none) (net : EmbNet) :
    textEmbedding cfg p net = ⟨.ok (sentinelVec d.toNat 0.2), [], []⟩ := by
  unfold textEmbedding
  rw [hd]
  simp only
  rw [if_pos hmem]
  rcases p with _ | s | t
  · exact absurd rfl hp
  · simp only [embTextOf] at htext
    simp [embTextOf, htext]
  · simp only [embTextOf] at htext
    simp [embTextOf, htext]

lemma textEmbedding_empty {cfg : Config} {d : Int} {p : EmbParams} {text : String}
    (hd : resolveEmbeddingDimension cfg = some d) (hmem : d ∈ VECTOR_DIMS)
    (htext : embTextOf p = some text) (htrim : (jsTrim text).isEmpty = true) (net : EmbNet) :
    textEmbedding cfg p net = ⟨.ok (sentinelVec d.toNat 0.3), [], []⟩ := by
  unfold textEmbedding
  rw [hd]
  simp only
  rw [if_pos hmem]
  rcases p with _ | s | t
  · exact absurd htext (by simp [embTextOf])
  · simp only [embTextOf, Option.some.injEq] at htext
    subst htext
    simp [embTextOf, htrim]
  · simp only [embTextOf] at htext
    simp [embTextOf, htext, htrim]

lemma textEmbedding_nokey {cfg : Config} {d : Int} {p : EmbParams} {text : String}
    (hd : resolveEmbeddingDimension cfg = some d) (hmem : d ∈ VECTOR_DIMS)
    (htext : embTextOf p = some text) (htrim : (jsTrim text).isEmpty = false)
    (hk : truthy (getEmbeddingApiKey cfg) = false) (net : EmbNet) :
    textEmbedding cfg p net = ⟨.error "ElizaOS API key not configured", [], []⟩ := by
  unfold textEmbedding
  rw [hd]
  simp only
  rw [if_pos hmem]
  rcases p with _ | s | t
  · exact absurd htext (by simp [embTextOf])
  · simp only [embTextOf, Option.some.injEq] at htext
    subst htext
    simp [embTextOf, htrim, hk]
  · simp only [embTextOf] at htext
    simp [embTextOf, htext, htrim, hk]

/-- Claim C3 (amended): every vector returned by the TEXT_EMBEDDING handler
either has length equal to the configured embedding dimension (all sentinel
and placeholder paths) or is exactly the embedding array of a successful
upstream response, returned unchecked. -/
theorem C3_amended (cfg : Config) (p : EmbParams) (net : EmbNet) (d : Int) (v : List Rat)
    (hd : resolveEmbeddingDimension cfg = some d) (hmem : d ∈ VECTOR_DIMS)
    (hv : (textEmbedding cfg p net).result = .ok v) :
    v.length = d.toNat ∨ embSuccessEmbedding net = some v := by
  by_cases hp : p = EmbParams.null
  · subst hp
    rw [textEmbedding_null hd hmem] at hv
    simp only [Except.ok.injEq] at hv
    exact Or.inl (hv ▸ sentinelVec_length _ _)
  · rcases htext : embTextOf p with _ | text
    · rw [textEmbedding_invalid hd hmem hp htext] at hv
      simp only [Except.ok.injEq] at hv
      exact Or.inl (hv ▸ sentinelVec_length _ _)
    · by_cases htrim : (jsTrim text).isEmpty = true
      · rw [textEmbedding_empty hd hmem htext htrim] at hv
        simp only [Except.ok.injEq] at hv
        exact Or.inl (hv ▸ sentinelVec_length _ _)
      · have htrim2 : (jsTrim text).isEmpty = false := by simpa using htrim
        by_cases hk : truthy (getEmbeddingApiKey cfg) = true
        · rw [textEmbedding_net hd hmem htext htrim2 hk] at hv
          rcases net with m | ⟨status, stx, jsonOk, emb, usage⟩
          · simp only [Except.ok.injEq] at hv
            exact Or.inl (hv ▸ sentinelVec_length _ _)
          · by_cases hok : respOk status = true
            · by_cases hjson : jsonOk = true
              · rcases emb with _ | e
                · simp only [hok, hjson, Bool.not_true, Bool.false_eq_true,
                    if_false, Except.ok.injEq] at hv
                  exact Or.inl (hv ▸ sentinelVec_length _ _)
                · simp only [hok, hjson, Bool.not_true, Bool.false_eq_true,
                    if_false, Except.ok.injEq] at hv
                  refine Or.inr ?_
                  simp [embSuccessEmbedding, hok, hjson, hv]
              · have hjson2 : jsonOk = false := by simpa using hjson
                simp only [hok, hjson2, Bool.not_true, Bool.not_false,
                  Bool.false_eq_true, if_false, if_true, Except.ok.injEq] at hv
                exact Or.inl (hv ▸ sentinelVec_length _ _)
            · have hok2 : respOk status = false := by simpa using hok
              simp only [hok2, Bool.not_false, if_true, Except.ok.injEq] at hv
              exact Or.inl (hv ▸ sentinelVec_length _ _)
        · have hk2 : truthy (getEmbeddingApiKey cfg) = false := by simpa using hk
          rw [textEmbedding_nokey hd hmem htext htrim2 hk2] at hv
          simp at hv

lemma textEmbedding_http_error {cfg : Config} {d : Int} {p : EmbParams} {text : String}
    (hd : resolveEmbeddingDimension cfg = some d) (hmem : d ∈ VECTOR_DIMS)
    (htext : embTextOf p = some text) (htrim : (jsTrim text).isEmpty = false)
    (hk : truthy (getEmbeddingApiKey cfg) = true) {status : Nat}
    (hok : respOk status = false) (stx : String) (jsonOk : Bool)
    (emb : Option (List Rat)) (usage : Option EmbUsage) :
    (textEmbedding cfg p (.resp status stx jsonOk emb usage)).result =
      .ok (sentinelVec d.toNat 0.4) := by
  rw [textEmbedding_net hd hmem htext htrim hk]
  simp [hok]

lemma textEmbedding_malformed {cfg : Config} {d : Int} {p : EmbParams} {text : String}
    (hd : resolveEmbeddingDimension cfg = some d) (hmem : d ∈ VECTOR_DIMS)
    (htext : embTextOf p = some text) (htrim : (jsTrim text).isEmpty = false)
    (hk : truthy (getEmbeddingApiKey cfg) = true) {status : Nat}
    (hok : respOk status = true) (stx : String) (usage : Option EmbUsage) :
    (textEmbedding cfg p (.resp status stx true none usage)).result =
      .ok (sentinelVec d.toNat 0.5) := by
  rw [textEmbedding_net hd hmem htext htrim hk]
  simp [hok]

lemma textEmbedding_exception {cfg : Config} {d : Int} {p : EmbParams} {text : String}
    (hd : resolveEmbeddingDimension cfg = some d) (hmem : d ∈ VECTOR_DIMS)
    (htext : embTextOf p = some text) (htrim : (jsTrim text).isEmpty = false)
    (hk : truthy (getEmbeddingApiKey cfg) = true) (m : String) :
    (textEmbedding cfg p (.throws m)).result = .ok (sentinelVec d.toNat 0.6) := by
  rw [textEmbedding_net hd hmem htext htrim hk]


/-- Claim C5 (confirmed): once the dimension setting is valid and an
embedding API key is present, the TEXT_EMBEDDING handler never returns an
error for any params and any network outcome; non-success statuses, malformed
payloads and exceptions all degrade to sentinel vectors. -/
theorem C5_theorem (cfg : Config) (d : Int)
    (hd : resolveEmbeddingDimension cfg = some d) (hmem : d ∈ VECTOR_DIMS)
    (hk : truthy (getEmbeddingApiKey cfg) = true) :
    (∀ p net, ∃ v, (textEmbedding cfg p net).result = .ok v) ∧
    (∀ p text m, embTextOf p = some text → (jsTrim text).isEmpty = false →
      (textEmbedding cfg p (.throws m)).result = .ok (sentinelVec d.toNat 0.6)) ∧
    (∀ p text status stx jsonOk emb usage, embTextOf p = some text →
      (jsTrim text).isEmpty = false → respOk status = false →
      (textEmbedding cfg p (.resp status stx jsonOk emb usage)).result =
        .ok (sentinelVec d.toNat 0.4)) ∧
    (∀ p text status stx usage, embTextOf p = some text →
      (jsTrim text).isEmpty = false → respOk status = true →
      (textEmbedding cfg p (.resp status stx true none usage)).result =
        .ok (sentinelVec d.toNat 0.5)) := by
  refine ⟨?_, ?_, ?_, ?_⟩
  · intro p net
    by_cases hp : p = EmbParams.null
    · subst hp
      rw [textEmbedding_null hd hmem]
      exact ⟨_, rfl⟩
    · rcases htext : embTextOf p with _ | text
      · rw [textEmbedding_invalid hd hmem hp htext]
        exact ⟨_, rfl⟩
      · by_cases htrim : (jsTrim text).isEmpty = true
        · rw [textEmbedding_empty hd hmem htext htrim]
          exact ⟨_, rfl⟩
        · rw [textEmbedding_net hd hmem htext (by simpa using htrim) hk]
          rcases net with m | ⟨status, stx, jsonOk, emb, usage⟩
          · exact ⟨_, rfl⟩
          · simp only
            split
            · exact ⟨_, rfl⟩
            · split
              · exact ⟨_, rfl⟩
              · rcases emb with _ | e
                · exact ⟨_, rfl⟩
                · exact ⟨_, rfl⟩
  · intro p text m htext htrim
    exact textEmbedding_exception hd hmem htext htrim hk m
  · intro p text status stx jsonOk emb usage htext htrim hok
    exact textEmbedding_http_error hd hmem htext htrim hk hok stx jsonOk emb usage
  · intro p text status stx usage htext htrim hok
    exact textEmbedding_malformed hd hmem htext htrim hk hok stx usage

/-- Claim C9 (confirmed): under a valid dimension setting, the null-params
path returns the test vector (first element 0.1, rest 0) with no request and
no credential requirement, the invalid-shape and empty-text paths return the
0.2 and 0.3 vectors likewise without any request, and the HTTP-error,
malformed-payload and exception paths return the 0.4, 0.5 and 0.6 vectors,
each of the configured dimension. -/
theorem C9_theorem (cfg : Config) (d : Int)
    (hd : resolveEmbeddingDimension cfg = some d) (hmem : d ∈ VECTOR_DIMS) :
    (∀ net, textEmbedding cfg .null net =
      ⟨.ok ((0.1 : Rat) :: List.replicate (d.toNat - 1) 0), [], []⟩) ∧
    (∀ net t, truthy t = false → textEmbedding cfg (.obj t) net =
      ⟨.ok ((0.2 : Rat) :: List.replicate (d.toNat - 1) 0), [], []⟩) ∧
    (∀ net s, (jsTrim s).isEmpty = true → textEmbedding cfg (.str s) net =
      ⟨.ok ((0.3 : Rat) :: List.replicate (d.toNat - 1) 0), [], []⟩) ∧
    (∀ p text status stx jsonOk emb usage, embTextOf p = some text →
      (jsTrim text).isEmpty = false → truthy (getEmbeddingApiKey cfg) = true →
      respOk status = false →
      (textEmbedding cfg p (.resp status stx jsonOk emb usage)).result =
        .ok ((0.4 : Rat) :: List.replicate (d.toNat - 1) 0)) ∧
    (∀ p text status stx usage, embTextOf p = some text →
      (jsTrim text).isEmpty = false → truthy (getEmbeddingApiKey cfg) = true →
      respOk status = true →
      (textEmbedding cfg p (.resp status stx true none usage)).result =
        .ok ((0.5 : Rat) :: List.replicate (d.toNat - 1) 0)) ∧
    (∀ p text m, embTextOf p = some text → (jsTrim text).isEmpty = false →
      truthy (getEmbeddingApiKey cfg) = true →
      (textEmbedding cfg p (.throws m)).result =
        .ok ((0.6 : Rat) :: List.replicate (d.toNat - 1) 0)) := by
  have hpos := dim_toNat_pos hmem
  refine ⟨?_, ?_, ?_, ?_, ?_, ?_⟩
  · intro net
    rw [textEmbedding_null hd hmem, sentinelVec_eq_cons hpos]
  · intro net t ht
    rw [textEmbedding_invalid hd hmem (by intro h; cases h) (by simp [embTextOf, ht]),
      sentinelVec_eq_cons hpos]
  · intro net s hs
    rw [textEmbedding_empty hd hmem (p := .str s) rfl hs, sentinelVec_eq_cons hpos]
  · intro p text status stx jsonOk emb usage htext htrim hk hok
    rw [← sentinelVec_eq_cons hpos]
    exact textEmbedding_http_error hd hmem htext htrim hk hok stx jsonOk emb usage
  · intro p text status stx usage htext htrim hk hok
    rw [← sentinelVec_eq_cons hpos]
    exact textEmbedding_malformed hd hmem htext htrim hk hok stx usage
  · intro p text m htext htrim hk
    rw [← sentinelVec_eq_cons hpos]
    exact textEmbedding_exception hd hmem htext htrim hk m

lemma textEmbedding_dimNaN {cfg : Config} (hd : resolveEmbeddingDimension cfg = none)
    (p : EmbParams) (net : EmbNet) :
    textEmbedding cfg p net = ⟨.error (invalidDimMsg none), [], []⟩ := by
  unfold textEmbedding
  rw [hd]

lemma textEmbedding_dimBad {cfg : Config} {d : Int}
    (hd : resolveEmbeddingDimension cfg = some d) (hmem : d ∉ VECTOR_DIMS)
    (p : EmbParams) (net : EmbNet) :
    textEmbedding cfg p net = ⟨.error (invalidDimMsg (some d)), [], []⟩ := by
  unfold textEmbedding
  rw [hd]
  simp only
  rw [if_neg hmem]

lemma textEmbedding_requests_one {cfg : Config} {d : Int} {p : EmbParams} {text : String}
    (hd : resolveEmbeddingDimension cfg = some d) (hmem : d ∈ VECTOR_DIMS)
    (htext : embTextOf p = some text) (htrim : (jsTrim text).isEmpty = false)
    (hk : truthy (getEmbeddingApiKey cfg) = true) (net : EmbNet) :
    (textEmbedding cfg p net).requests =
      [⟨getEmbeddingBaseURL cfg, "/embeddings", bearerOf (getEmbeddingApiKey cfg)⟩] := by
  rw [textEmbedding_net hd hmem htext htrim hk]
  rcases net with m | ⟨status, stx, jsonOk, emb, usage⟩
  · rfl
  · simp only
    split
    · rfl
    · split
      · rfl
      · rcases emb with _ | e
        · rfl
        · rfl

/-- Claim C1 (amended): when no API key is resolvable, the embedding handler
issues no outbound request (throwing the configuration error once it reaches
the credential check), the image-generation and transcription handlers throw
their configuration error before any request, and the image-description
handler returns an error placeholder object before any request; the
text-to-speech handler, however, performs no credential check and issues its
single HTTP request regardless. -/
theorem C1_amended (cfg : Config)
    (hk : truthy (getApiKey cfg) = false)
    (he : truthy (getSetting cfg "ELIZAOS_EMBEDDING_API_KEY") = false) :
    (∀ p net, (textEmbedding cfg p net).requests = []) ∧
    (∀ p text net d, resolveEmbeddingDimension cfg = some d → d ∈ VECTOR_DIMS →
      embTextOf p = some text → (jsTrim text).isEmpty = false →
      (textEmbedding cfg p net).result = .error "ElizaOS API key not configured") ∧
    (∀ p net, (imageHandler cfg p net).result = .error "ElizaOS API key not configured" ∧
      (imageHandler cfg p net).requests = []) ∧
    (∀ p net, (imageDescription cfg p net).result =
        .obj "Failed to analyze image" "API key not configured" ∧
      (imageDescription cfg p net).requests = []) ∧
    (∀ a net, (transcription cfg a net).result =
        .error "ElizaOS API key not configured - Cannot make request" ∧
      (transcription cfg a net).requests = []) ∧
    (∀ t net, (fetchTextToSpeech cfg t net).requests =
      [⟨getBaseURL cfg, "/audio/speech", bearerOf (getApiKey cfg)⟩]) := by
  have hek : truthy (getEmbeddingApiKey cfg) = false := by
    simp only [getEmbeddingApiKey, he]
    simpa using hk
  refine ⟨?_, ?_, ?_, ?_, ?_, ?_⟩
  · intro p net
    exact textEmbedding_requests_nil hek p net
  · intro p text net d hd hmem htext htrim
    rw [textEmbedding_nokey hd hmem htext htrim hek]
  · intro p net
    constructor <;> simp [imageHandler, hk]
  · intro p net
    constructor <;> simp [imageDescription, hk]
  · intro a net
    constructor <;> simp [transcription, hk]
  · intro t net
    unfold fetchTextToSpeech
    rcases net with m | ⟨status, stx, errText, bodyTag⟩
    · rfl
    · simp only
      split
      · rfl
      · rfl

/-- Witness for C1_amended at a concrete keyless configuration. -/
theorem C1_amended_witness :
    (textEmbedding cfgEmpty (EmbParams.str "hello") (EmbNet.throws "boom")).requests = [] ∧
    (fetchTextToSpeech cfgEmpty "hello" (TTSNet.resp 401 "Unauthorized" "err" "s")).requests =
      [⟨getBaseURL cfgEmpty, "/audio/speech", bearerOf (getApiKey cfgEmpty)⟩] :=
  ⟨(C1_amended cfgEmpty rfl rfl).1 _ _,
   (C1_amended cfgEmpty rfl rfl).2.2.2.2.2 _ _⟩

/-- Counterexample to claim C1 as stated: with no API key resolvable, the
text-to-speech path still issues its outbound HTTP request (with the literal
Authorization header a JS template produces from undefined), and the
resulting error comes from the upstream response, not from a pre-request
credential check. -/
theorem C1_counterexample :
    getApiKey cfgEmpty = none ∧ getEmbeddingApiKey cfgEmpty = none ∧
    (fetchTextToSpeech cfgEmpty "hello"
      (TTSNet.resp 401 "Unauthorized" "missing key" "s")).requests =
      [⟨"http://localhost:3001/api/v1", "/audio/speech", "Bearer undefined"⟩] ∧
    (fetchTextToSpeech cfgEmpty "hello"
      (TTSNet.resp 401 "Unauthorized" "missing key" "s")).result =
      .error "Failed to fetch speech from ElizaOS TTS: ElizaOS TTS error 401: missing key" :=
  ⟨rfl, rfl, rfl, rfl⟩

/-- Claim C2 (amended): getSetting resolves with the fixed precedence
(runtime setting, else environment variable, else default); the tokenizer
model-name resolution, however, depends only on the environment component of
the configuration, ignoring runtime settings. -/
theorem C2_amended :
    (∀ (rt env : String → Option String) (key : String) (d : Option String) (s : String),
      rt key = some s → getSetting ⟨rt, env⟩ key d = some s) ∧
    (∀ (rt env : String → Option String) (key : String) (d : Option String) (s : String),
      rt key = none → env key = some s → getSetting ⟨rt, env⟩ key d = some s) ∧
    (∀ (rt env : String → Option String) (key : String) (d : Option String),
      rt key = none → env key = none → getSetting ⟨rt, env⟩ key d = d) ∧
    (∀ (rt rt2 env : String → Option String) (model : String),
      tokenizerModelName ⟨rt, env⟩ model = tokenizerModelName ⟨rt2, env⟩ model) := by
  refine ⟨?_, ?_, ?_, ?_⟩
  · intro rt env key d s h
    simp [getSetting, h]
  · intro rt env key d s h1 h2
    simp [getSetting, h1, h2]
  · intro rt env key d h1 h2
    simp [getSetting, h1, h2]
  · intro rt rt2 env model
    rfl

/-- Witness for C2_amended at concrete configurations. -/
theorem C2_amended_witness :
    getSetting ⟨fun _ => some "rv", fun _ => some "ev"⟩ "K" (some "dv") = some "rv" ∧
    getSetting ⟨fun _ => none, fun _ => some "ev"⟩ "K" (some "dv") = some "ev" ∧
    getSetting ⟨fun _ => none, fun _ => none⟩ "K" (some "dv") = some "dv" ∧
    tokenizerModelName ⟨fun _ => some "rv", fun _ => none⟩ ModelType.TEXT_LARGE =
      tokenizerModelName ⟨fun _ => none, fun _ => none⟩ ModelType.TEXT_LARGE :=
  ⟨C2_amended.1 _ _ "K" (some "dv") "rv" rfl,
   C2_amended.2.1 _ _ "K" (some "dv") "ev" rfl rfl,
   C2_amended.2.2.1 _ _ "K" (some "dv") rfl rfl,
   C2_amended.2.2.2 _ _ _ ModelType.TEXT_LARGE⟩

/-- Counterexample to claim C2 as stated: with a runtime setting
ELIZAOS_LARGE_MODEL present (and no environment variables), the
precedence-following resolution yields that setting, but the tokenizer
handlers resolve the hardcoded default instead, ignoring the runtime
setting. -/
theorem C2_counterexample :
    cfgRtLargeModel.runtimeSettings "ELIZAOS_LARGE_MODEL" = some "custom-model" ∧
    cfgRtLargeModel.env "ELIZAOS_LARGE_MODEL" = none ∧
    getLargeModel cfgRtLargeModel = "custom-model" ∧
    tokenizerModelName cfgRtLargeModel ModelType.TEXT_LARGE = "gpt-5-mini" :=
  ⟨rfl, rfl, rfl, rfl⟩

/-- Claim C4 (confirmed): tokenize-then-detokenize round-trips to the
original text for any model family under a fixed configuration, because both
functions resolve the same model name and hence the same encoding; the
hypothesis is the round-trip property of the external tiktoken encodings
themselves, which the plugin relies on. -/
theorem C4_theorem (lib : String → Encoding) (cfg : Config) (model : String) (s : String)
    (hlib : ∀ m, (lib m).decode ((lib m).encode s) = s) :
    detokenizeText lib cfg model (tokenizeText lib cfg model s) = s :=
  hlib (tokenizerModelName cfg model)

/-- Witness for C4_theorem with a concrete invertible encoding. -/
theorem C4_witness :
    detokenizeText (fun _ => idEncoding) cfgEmpty ModelType.TEXT_SMALL
      (tokenizeText (fun _ => idEncoding) cfgEmpty ModelType.TEXT_SMALL "hello") = "hello" :=
  C4_theorem _ cfgEmpty ModelType.TEXT_SMALL "hello" (fun _ => by decide)

/-- Counterexample to claim C3 as stated: with the configured dimension 1536,
a successful upstream response carrying a 1-element embedding is returned as
is, so the returned length differs from the configured dimension. -/
theorem C3_counterexample :
    resolveEmbeddingDimension cfgKey = some 1536 ∧
    (textEmbedding cfgKey (EmbParams.str "hi")
      (EmbNet.resp 200 "OK" true (some [(0.5 : Rat)]) none)).result = .ok [(0.5 : Rat)] ∧
    [(0.5 : Rat)].length ≠ (1536 : Int).toNat :=
  ⟨rfl, rfl, by decide⟩

/-- Witness for C3_amended at a concrete successful response. -/
theorem C3_amended_witness :
    [(0.5 : Rat)].length = (1536 : Int).toNat ∨
      embSuccessEmbedding (EmbNet.resp 200 "OK" true (some [(0.5 : Rat)]) none) =
        some [(0.5 : Rat)] :=
  C3_amended cfgKey (EmbParams.str "hi") _ 1536 [(0.5 : Rat)] rfl (by decide) rfl

/-- Witness for C5_theorem at a concrete configuration and network
outcome. -/
theorem C5_theorem_witness :
    ∃ v, (textEmbedding cfgKey (EmbParams.str "hi") (EmbNet.throws "boom")).result =
      .ok v :=
  (C5_theorem cfgKey 1536 rfl (by decide) rfl).1 (EmbParams.str "hi") (EmbNet.throws "boom")

/-- Witness for C9_theorem: the null-params test vector at dimension 384,
with no credentials configured. -/
theorem C9_theorem_witness :
    textEmbedding cfgKey384 EmbParams.null (EmbNet.throws "x") =
      ⟨.ok ((0.1 : Rat) :: List.replicate ((384 : Int).toNat - 1) 0), [], []⟩ :=
  (C9_theorem cfgKey384 384 rfl (by decide)).1 (EmbNet.throws "x")

/-- Claim C6 (amended): a non-success upstream status makes the speech,
image-generation and transcription handlers throw an error embedding the
status or status text, and the SDK-based generation handlers propagate the
SDK's error unchanged; the image-description handler instead catches its
internal status error and returns a placeholder object whose description
embeds the status. -/
theorem C6_amended (cfg : Config) :
    (∀ t status stx errText bodyTag, respOk status = false →
      (fetchTextToSpeech cfg t (.resp status stx errText bodyTag)).result =
        .error ("Failed to fetch speech from ElizaOS TTS: ElizaOS TTS error " ++
          toString status ++ ": " ++ errText)) ∧
    (∀ p status stx body, truthy (getApiKey cfg) = true → respOk status = false →
      (imageHandler cfg p (.resp status stx body)).result =
        .error ("Failed to generate image: " ++ stx)) ∧
    (∀ b status stx body, truthy (getApiKey cfg) = true → b ≠ [] →
      respOk status = false →
      (transcription cfg (some b) (.resp status stx body)).result =
        .error ("Failed to transcribe audio: " ++ stx)) ∧
    (∀ params status stx body, truthy (getApiKey cfg) = true → respOk status = false →
      (imageDescription cfg params (.resp status stx body)).result =
        .obj "Failed to analyze image" ("Error: ElizaOS API error: " ++ toString status)) ∧
    (∀ modelName tag p m, (generateTextCore cfg modelName tag p (.throws m)).result =
      .error m) := by
  refine ⟨?_, ?_, ?_, ?_, ?_⟩
  · intro t status stx errText bodyTag hok
    simp [fetchTextToSpeech, hok]
  · intro p status stx body hk hok
    simp [imageHandler, hk, hok]
  · intro b status stx body hk hb hok
    have hb2 : b.isEmpty = false := by simpa using hb
    simp [transcription, hk, hb2, hok]
  · intro params status stx body hk hok
    simp [imageDescription, hk, hok]
  · intro modelName tag p m
    rfl

/-- Witness for C6_amended at concrete non-success responses. -/
theorem C6_amended_witness :
    (fetchTextToSpeech cfgKey "hi"
      (TTSNet.resp 503 "Service Unavailable" "overloaded" "s")).result =
      .error ("Failed to fetch speech from ElizaOS TTS: ElizaOS TTS error " ++
        toString 503 ++ ": " ++ "overloaded") ∧
    (imageHandler cfgKey ⟨"p", none, none⟩
      (ImageNet.resp 404 "Not Found" (.ok ⟨none, none⟩))).result =
      .error ("Failed to generate image: " ++ "Not Found") :=
  ⟨(C6_amended cfgKey).1 "hi" 503 "Service Unavailable" "overloaded" "s" rfl,
   (C6_amended cfgKey).2.1 ⟨"p", none, none⟩ 404 "Not Found" (.ok ⟨none, none⟩) rfl rfl⟩

/-- Counterexample to claim C6 as stated: on a 500 response the
image-description handler returns normally with a placeholder object (after
having issued its one request); no error is surfaced to the caller. -/
theorem C6_counterexample :
    (imageDescription cfgKey (.str "https://x/image.png")
      (ChatNet.resp 500 "Internal Server Error" (.ok ⟨none, none⟩))).result =
      .obj "Failed to analyze image" "Error: ElizaOS API error: 500" ∧
    (imageDescription cfgKey (.str "https://x/image.png")
      (ChatNet.resp 500 "Internal Server Error" (.ok ⟨none, none⟩))).requests =
      [⟨"http://localhost:3001/api/v1", "/chat/completions", "Bearer test-api-key"⟩] :=
  ⟨rfl, rfl⟩

/-- Claim C7 (confirmed): every handler that reaches its network phase issues
exactly one outbound request, to its fixed path under the resolved base URL;
a handler's request list is otherwise empty, and no branch issues a second
request. -/
theorem C7_theorem (cfg : Config) :
    (∀ p net, (textEmbedding cfg p net).requests = [] ∨
      (textEmbedding cfg p net).requests =
        [⟨getEmbeddingBaseURL cfg, "/embeddings", bearerOf (getEmbeddingApiKey cfg)⟩]) ∧
    (∀ p net, (imageHandler cfg p net).requests = [] ∨
      (imageHandler cfg p net).requests =
        [⟨getBaseURL cfg, "/images/generations", bearerOf (getApiKey cfg)⟩]) ∧
    (∀ p net, (imageDescription cfg p net).requests = [] ∨
      (imageDescription cfg p net).requests =
        [⟨getBaseURL cfg, "/chat/completions", bearerOf (getApiKey cfg)⟩]) ∧
    (∀ a net, (transcription cfg a net).requests = [] ∨
      (transcription cfg a net).requests =
        [⟨getBaseURL cfg, "/audio/transcriptions", bearerOf (getApiKey cfg)⟩]) ∧
    (∀ t net, (fetchTextToSpeech cfg t net).requests =
      [⟨getBaseURL cfg, "/audio/speech", bearerOf (getApiKey cfg)⟩]) ∧
    (∀ modelName tag p net, (generateTextCore cfg modelName tag p net).requests =
      [⟨getBaseURL cfg, "/chat/completions", bearerOf (getApiKey cfg)⟩]) ∧
    (∀ jsonParse p ty modelName net,
      (generateObjectByModelType cfg jsonParse p ty modelName net).requests =
        [⟨getBaseURL cfg, "/chat/completions", bearerOf (getApiKey cfg)⟩]) := by
  refine ⟨?_, ?_, ?_, ?_, ?_, ?_, ?_⟩
  · intro p net
    rcases hd : resolveEmbeddingDimension cfg with _ | d
    · rw [textEmbedding_dimNaN hd]
      exact Or.inl rfl
    · by_cases hmem : d ∈ VECTOR_DIMS
      · by_cases hp : p = EmbParams.null
        · subst hp
          rw [textEmbedding_null hd hmem]
          exact Or.inl rfl
        · rcases htext : embTextOf p with _ | text
          · rw [textEmbedding_invalid hd hmem hp htext]
            exact Or.inl rfl
          · by_cases htrim : (jsTrim text).isEmpty = true
            · rw [textEmbedding_empty hd hmem htext htrim]
              exact Or.inl rfl
            · by_cases hk : truthy (getEmbeddingApiKey cfg) = true
              · exact Or.inr (textEmbedding_requests_one hd hmem htext
                  (by simpa using htrim) hk net)
              · rw [textEmbedding_nokey hd hmem htext (by simpa using htrim)
                  (by simpa using hk)]
                exact Or.inl rfl
      · rw [textEmbedding_dimBad hd hmem]
        exact Or.inl rfl
  · intro p net
    by_cases hk : truthy (getApiKey cfg) = true
    · refine Or.inr ?_
      unfold imageHandler
      simp only [hk, if_true]
      rcases net with m | ⟨status, stx, body⟩
      · rfl
      · simp only
        split
        · rfl
        · rcases body with m | b
          · rfl
          · rfl
    · refine Or.inl ?_
      have hk2 : truthy (getApiKey cfg) = false := by simpa using hk
      simp [imageHandler, hk2]
  · intro p net
    by_cases hk : truthy (getApiKey cfg) = true
    · refine Or.inr ?_
      unfold imageDescription
      simp only [hk, if_true]
      rcases net with m | ⟨status, stx, body⟩
      · rfl
      · simp only
        split
        · rfl
        · rcases body with m | b
          · rfl
          · simp only
            split
            · split
              · rfl
              · rfl
            · rfl
    · refine Or.inl ?_
      have hk2 : truthy (getApiKey cfg) = false := by simpa using hk
      simp [imageDescription, hk2]
  · intro a net
    by_cases hk : truthy (getApiKey cfg) = true
    · unfold transcription
      simp only [hk, if_true]
      split
      · exact Or.inl rfl
      · refine Or.inr ?_
        rcases net with m | ⟨status, stx, body⟩
        · rfl
        · simp only
          split
          · rfl
          · rcases body with m | b
            · rfl
            · rfl
    · refine Or.inl ?_
      have hk2 : truthy (getApiKey cfg) = false := by simpa using hk
      simp [transcription, hk2]
  · intro t net
    unfold fetchTextToSpeech
    rcases net with m | ⟨status, stx, errText, bodyTag⟩
    · rfl
    · simp only
      split
      · rfl
      · rfl
  · intro modelName tag p net
    rcases net with m | ⟨text, usage⟩ <;> rfl
  · intro jsonParse p ty modelName net
    rcases net with m | text | ⟨obj, usage⟩
    · rfl
    · unfold generateObjectByModelType
      simp only
      split
      · split
        · rfl
        · rfl
      · rfl
    · rfl

/-- Claim C8 (amended): the generation, object-generation, embedding and
image-description handlers emit exactly one MODEL_USED event with provider
elizaos and the three token counts when they parse usage data from the
response (embedding only on its full success path), and none when usage is
absent; the image, transcription and speech handlers never emit a usage
event, even when the upstream response carries usage data. -/
theorem C8_amended (cfg : Config) :
    (∀ p net, (imageHandler cfg p net).events = []) ∧
    (∀ a net, (transcription cfg a net).events = []) ∧
    (∀ t net, (fetchTextToSpeech cfg t net).events = []) ∧
    (∀ modelName tag p text u,
      (generateTextCore cfg modelName tag p (.success text (some u))).events =
        [emitModelUsageEvent tag p.prompt u.promptTokens u.completionTokens
          u.totalTokens]) ∧
    (∀ modelName tag p net, GenNet.usageOf net = none →
      (generateTextCore cfg modelName tag p net).events = []) ∧
    (∀ jsonParse p ty modelName obj u,
      (generateObjectByModelType cfg jsonParse p ty modelName
        (.success obj (some u))).events =
        [emitModelUsageEvent ty p.prompt u.promptTokens u.completionTokens
          u.totalTokens]) ∧
    (∀ jsonParse p ty modelName net, objNetUsage net = none →
      (generateObjectByModelType cfg jsonParse p ty modelName net).events = []) ∧
    (∀ p d text, resolveEmbeddingDimension cfg = some d → d ∈ VECTOR_DIMS →
      embTextOf p = some text → (jsTrim text).isEmpty = false →
      truthy (getEmbeddingApiKey cfg) = true →
      ∀ status stx e u, respOk status = true →
        (textEmbedding cfg p (.resp status stx true (some e) (some u))).events =
          [emitModelUsageEvent ModelType.TEXT_EMBEDDING text u.prompt_tokens 0
            u.total_tokens]) ∧
    (∀ p net, embUsageOf net = none → (textEmbedding cfg p net).events = []) ∧
    (∀ params status stx c u, truthy (getApiKey cfg) = true → respOk status = true →
      (imageDescription cfg params (.resp status stx (.ok ⟨c, some u⟩))).events =
        [emitModelUsageEvent ModelType.IMAGE_DESCRIPTION (imgDescEventPrompt params)
          u.promptTokens u.completionTokens u.totalTokens]) ∧
    (∀ params net, chatNetUsage net = none →
      (imageDescription cfg params net).events = []) := by
  refine ⟨?_, ?_, ?_, ?_, ?_, ?_, ?_, ?_, ?_, ?_, ?_⟩
  · intro p net
    unfold imageHandler
    by_cases hk : truthy (getApiKey cfg) = true
    · simp only [hk, if_true]
      rcases net with m | ⟨status, stx, body⟩
      · rfl
      · simp only
        split
        · rfl
        · rcases body with m | b
          · rfl
          · rfl
    · have hk2 : truthy (getApiKey cfg) = false := by simpa using hk
      simp [hk2]
  · intro a net
    unfold transcription
    by_cases hk : truthy (getApiKey cfg) = true
    · simp only [hk, if_true]
      split
      · rfl
      · rcases net with m | ⟨status, stx, body⟩
        · rfl
        · simp only
          split
          · rfl
          · rcases body with m | b
            · rfl
            · rfl
    · have hk2 : truthy (getApiKey cfg) = false := by simpa using hk
      simp [hk2]
  · intro t net
    unfold fetchTextToSpeech
    rcases net with m | ⟨status, stx, errText, bodyTag⟩
    · rfl
    · simp only
      split
      · rfl
      · rfl
  · intro modelName tag p text u
    rfl
  · intro modelName tag p net hu
    rcases net with m | ⟨text, usage⟩
    · rfl
    · simp only [GenNet.usageOf] at hu
      subst hu
      rfl
  · intro jsonParse p ty modelName obj u
    rfl
  · intro jsonParse p ty modelName net hu
    rcases net with m | text | ⟨obj, usage⟩
    · rfl
    · unfold generateObjectByModelType
      simp only
      split
      · split
        · rfl
        · rfl
      · rfl
    · simp only [objNetUsage] at hu
      subst hu
      rfl
  · intro p d text hd hmem htext htrim hk status stx e u hok
    rw [textEmbedding_net hd hmem htext htrim hk]
    simp [hok]
  · intro p net hu
    rcases hd : resolveEmbeddingDimension cfg with _ | d
    · rw [textEmbedding_dimNaN hd]
    · by_cases hmem : d ∈ VECTOR_DIMS
      · by_cases hp : p = EmbParams.null
        · subst hp
          rw [textEmbedding_null hd hmem]
        · rcases htext : embTextOf p with _ | text
          · rw [textEmbedding_invalid hd hmem hp htext]
          · by_cases htrim : (jsTrim text).isEmpty = true
            · rw [textEmbedding_empty hd hmem htext htrim]
            · by_cases hk : truthy (getEmbeddingApiKey cfg) = true
              · rw [textEmbedding_net hd hmem htext (by simpa using htrim) hk]
                rcases net with m | ⟨status, stx, jsonOk, emb, usage⟩
                · rfl
                · simp only [embUsageOf] at hu
                  subst hu
                  simp only
                  split
                  · rfl
                  · split
                    · rfl
                    · rcases emb with _ | e
                      · rfl
                      · rfl
              · rw [textEmbedding_nokey hd hmem htext (by simpa using htrim)
                  (by simpa using hk)]
      · rw [textEmbedding_dimBad hd hmem]
  · intro params status stx c u hk hok
    unfold imageDescription
    simp only [hk, if_true]
    simp only [hok, Bool.not_true, Bool.false_eq_true, if_false]
    split
    · split
      · rfl
      · rfl
    · rfl
  · intro params net hu
    unfold imageDescription
    by_cases hk : truthy (getApiKey cfg) = true
    · simp only [hk, if_true]
      rcases net with m | ⟨status, stx, body⟩
      · rfl
      · simp only
        split
        · rfl
        · rcases body with m | b
          · rfl
          · simp only [chatNetUsage] at hu
            simp only [hu]
            split
            · split
              · rfl
              · rfl
            · rfl
    · have hk2 : truthy (getApiKey cfg) = false := by simpa using hk
      simp [hk2]

/-- Counterexample to claim C8 as stated: a successful image-generation
response carrying usage data produces no usage event. -/
theorem C8_counterexample :
    imageNetUsage (ImageNet.resp 200 "OK"
      (.ok ⟨some ["https://x/img.png"], some ⟨1, 2, 3⟩⟩)) = some ⟨1, 2, 3⟩ ∧
    (imageHandler cfgKey ⟨"a sunset", none, none⟩ (ImageNet.resp 200 "OK"
      (.ok ⟨some ["https://x/img.png"], some ⟨1, 2, 3⟩⟩))).events = [] :=
  ⟨rfl, rfl⟩

/-- Witness for C8_amended at concrete responses with and without usage. -/
theorem C8_amended_witness :
    (generateTextCore cfgKey "gpt-4o" ModelType.TEXT_SMALL ⟨"hi", none, none, none, none, none⟩
      (GenNet.success "hello" (some ⟨3, 4, 7⟩))).events =
      [emitModelUsageEvent ModelType.TEXT_SMALL "hi" 3 4 7] ∧
    (imageHandler cfgKey ⟨"p", none, none⟩ (ImageNet.resp 200 "OK"
      (.ok ⟨some [], some ⟨1, 2, 3⟩⟩))).events = [] :=
  ⟨(C8_amended cfgKey).2.2.2.1 "gpt-4o" ModelType.TEXT_SMALL
      ⟨"hi", none, none, none, none, none⟩ "hello" ⟨3, 4, 7⟩,
   (C8_amended cfgKey).1 ⟨"p", none, none⟩ _⟩

/-- Claim C10 (amended): on a successful response with content, a non-empty
prompt differing from the default analysis prompt yields the raw content
string, and every other case yields the parsed object, with the title taken
from a title line (falling back to Image Analysis) and the description the
remaining content. -/
theorem C10_amended (cfg : Config) (params : ImgDescParams) (status : Nat) (stx : String)
    (content : String) (usage : Option Usage3)
    (hk : truthy (getApiKey cfg) = true) (hok : respOk status = true)
    (hc : content.isEmpty = false) :
    (isCustomPrompt params = true →
      (imageDescription cfg params
        (.resp status stx (.ok ⟨some content, usage⟩))).result = .raw content) ∧
    (isCustomPrompt params = false →
      (imageDescription cfg params
        (.resp status stx (.ok ⟨some content, usage⟩))).result =
        .obj (parsedTitleOf content) (parsedDescriptionOf content)) := by
  constructor
  · intro hcust
    unfold imageDescription
    simp only [hk, if_true, hok, Bool.not_true, Bool.false_eq_true, if_false]
    simp [truthy, hc, hcust]
  · intro hcust
    unfold imageDescription
    simp only [hk, if_true, hok, Bool.not_true, Bool.false_eq_true, if_false]
    simp [truthy, hc, hcust]

/-- Witness for C10_amended: default prompt with a structured content parses
into its title and description. -/
theorem C10_amended_witness :
    (imageDescription cfgKey (.str "https://x/img.png")
      (ChatNet.resp 200 "OK" (.ok ⟨some "Title: A Cat\nThe description.", none⟩))).result =
      .obj "A Cat" "The description." := by
  have h := (C10_amended cfgKey (.str "https://x/img.png") 200 "OK"
    "Title: A Cat\nThe description." none rfl rfl rfl).2 rfl
  rw [h]
  rfl

/-- Counterexample to claim C10 as stated: an empty-string prompt differs
from the default analysis prompt, yet the handler returns the parsed object,
not the raw content. -/
theorem C10_counterexample :
    (some "" : Option String) ≠ some defaultAnalysisPrompt ∧
    (imageDescription cfgKey (.obj "https://x/img.png" (some ""))
      (ChatNet.resp 200 "OK" (.ok ⟨some "a cat", none⟩))).result =
      .obj "Image Analysis" "a cat" :=
  ⟨by decide, rfl⟩

end ElizaCloud
